import Mathlib

/-!
Shallow embedding of the analytical core of `src/csv_analyser.py`
(pandas-based percentile / zero-streak statistics over a CSV of
timestamped readings), together with theorems settling the spec's claims.

Modelling conventions:
* A pandas DataFrame row is a `Row`.  The `wartosc` column is modelled
  after numeric coercion (`pd.to_numeric(..., errors="coerce")`): `none`
  stands for NaN (a missing or unparseable number), `some v` for the exact
  numeric value, represented as a rational.
* The timestamp column (`dtime_utc` / `dtime`) is modelled after datetime
  coercion, as hours since an arbitrary epoch: `none` stands for NaT.
  `pd.Series.diff().dt.total_seconds().div(3600)` then becomes plain
  rational subtraction of these hour values.
* Floats are modelled exactly by rationals; pandas sorting is modelled by
  `List.insertionSort` (stable, like pandas `sort_values`).
* Functions that `raise ValueError` are modelled in `Except String`.
-/

namespace CsvAnalyser

/-- One row of the loaded table: `resource_code` (`none` = NaN),
`wartosc` after numeric coercion, timestamp in hours after datetime
coercion. -/
structure Row where
  resource_code : Option String
  wartosc : Option ℚ
  timestamp : Option ℚ
deriving Repr, DecidableEq

/-- `EXCLUDED_PERCENTILE_CODE_PREFIXES` from the source. -/
def EXCLUDED_PERCENTILE_CODE_PREFIXES : List String :=
  ["ZRN", "PZR", "JW7", "WLC", "ZGR", "SNA", "ZWA"]

/-- `is_excluded_from_percentiles`: True if `resource_code` starts with an
excluded percentile code. -/
def is_excluded_from_percentiles (resource_code : String) : Bool :=
  EXCLUDED_PERCENTILE_CODE_PREFIXES.any (fun p => resource_code.startsWith p)

/-- `sorted(df["resource_code"].dropna().unique())`: the sorted distinct
non-missing resource codes. -/
def all_codes (df : List Row) : List String :=
  List.insertionSort (· ≤ ·) (df.filterMap (·.resource_code)).dedup

/-- `get_percentile_base_codes`: sorted resource codes eligible for
percentile calculations.  (The missing-column check of the source is
trivial here because `Row` always carries the column.) -/
def get_percentile_base_codes (df : List Row) : List String :=
  (all_codes df).filter (fun code => ¬ is_excluded_from_percentiles code)

/-- `records_for_resource`: all records for a given `resource_code`
(an exact-match filter; a NaN `resource_code` never matches). -/
def records_for_resource (df : List Row) (resource_code : String) : List Row :=
  df.filter (fun r => r.resource_code == some resource_code)

/-- `pd.to_numeric(target["wartosc"], errors="coerce").dropna()` for the
records of one resource. -/
def numeric_wartosc (df : List Row) (resource_code : String) : List ℚ :=
  (records_for_resource df resource_code).filterMap (·.wartosc)

/-- `wartosc[wartosc > 0]` over the numeric values of one resource. -/
def positive_wartosc (df : List Row) (resource_code : String) : List ℚ :=
  (numeric_wartosc df resource_code).filter (fun v => decide (0 < v))

/-- `wartosc[wartosc != 0]` over the numeric values of one resource. -/
def non_zero_wartosc (df : List Row) (resource_code : String) : List ℚ :=
  (numeric_wartosc df resource_code).filter (fun v => decide (v ≠ 0))

/-- pandas `Series.min()` over a nonempty list (0 on an empty list, a case
the source never reaches). -/
def seriesMin (l : List ℚ) : ℚ :=
  l.minimum.untop' 0

/-- pandas `Series.max()` over a nonempty list (0 on an empty list, a case
the source never reaches). -/
def seriesMax (l : List ℚ) : ℚ :=
  l.maximum.unbot' 0

/-- Linear interpolation between order statistics of a sorted list at
fractional position `h`: pandas `quantile`'s default interpolation, with
`h = q * (n - 1)`, reading the order statistics at `floor h` and the next
index (clamped to the last index). -/
def interp (xs : List ℚ) (h : ℚ) : ℚ :=
  xs.getD (⌊h⌋).toNat 0 +
    (h - (((⌊h⌋).toNat : ℕ) : ℚ)) *
      (xs.getD (min ((⌊h⌋).toNat + 1) (xs.length - 1)) 0 - xs.getD (⌊h⌋).toNat 0)

/-- pandas `Series.quantile(q)` (linear interpolation): sort the values,
then interpolate at position `q * (n - 1)`.  Returns 0 on an empty list, a
case the source never reaches (it raises first). -/
def quantile (xs : List ℚ) (q : ℚ) : ℚ :=
  let s := List.insertionSort (· ≤ ·) xs
  if s.isEmpty then 0 else interp s (q * ((s.length : ℚ) - 1))

/-- `resource_wartosc_stats`: `(minimum positive wartosc, 5th percentile of
non-zero wartosc)` for one resource, with the source's four `ValueError`
branches as `Except.error`. -/
def resource_wartosc_stats (df : List Row) (resource_code : String) :
    Except String (ℚ × ℚ) :=
  if records_for_resource df resource_code = [] then
    .error ("No records found for resource_code=" ++ resource_code)
  else if numeric_wartosc df resource_code = [] then
    .error ("No numeric wartosc values for resource_code=" ++ resource_code)
  else if positive_wartosc df resource_code = [] then
    .error ("No positive wartosc values for resource_code=" ++ resource_code)
  else if non_zero_wartosc df resource_code = [] then
    .error ("No non-zero wartosc values for resource_code=" ++ resource_code)
  else
    .ok (seriesMin (positive_wartosc df resource_code),
         quantile (non_zero_wartosc df resource_code) (1/20))

/-- All rows of the table whose `wartosc` coerces to a strictly positive
number (`work[work["wartosc"] > 0]`). -/
def positive_rows (df : List Row) : List Row :=
  df.filter (fun r => match r.wartosc with | some v => decide (0 < v) | none => false)

/-- `min_positive_per_resource`: one `(resource_code, minimum positive
wartosc)` entry per resource code holding a positive value, sorted by
resource code (pandas `groupby("resource_code")["wartosc"].idxmin()`
drops NaN group keys; sorting by code then value leaves one row per code
in code order).  Returns the empty table when no positive value exists. -/
def min_positive_per_resource (df : List Row) : List (String × ℚ) :=
  let positive := positive_rows df
  if positive = [] then []
  else
    (List.insertionSort (· ≤ ·) (positive.filterMap (·.resource_code)).dedup).map
      (fun code =>
        (code, seriesMin ((positive.filter
          (fun r => r.resource_code == some code)).filterMap (·.wartosc))))

/-! ## Zero-streak detection (`zero_streaks_hours`) -/

/-- Ordering of series rows `(timestamp, wartosc)` by timestamp, as used by
`sort_values("timestamp")`. -/
def tsLe (a b : ℚ × ℚ) : Prop := a.1 ≤ b.1

instance : DecidableRel tsLe := fun a b => inferInstanceAs (Decidable (a.1 ≤ b.1))

instance : IsTotal (ℚ × ℚ) tsLe := ⟨fun a b => le_total a.1 b.1⟩

instance : IsTrans (ℚ × ℚ) tsLe := ⟨fun _ _ _ h h2 => le_trans h h2⟩

/-- The Resource Series before sorting: records of one resource with both
coercions succeeding, as `(timestamp in hours, wartosc)` pairs
(`dropna(subset=["timestamp", "wartosc"])`). -/
def coerced_series (df : List Row) (resource_code : String) : List (ℚ × ℚ) :=
  (records_for_resource df resource_code).filterMap
    (fun r => match r.timestamp, r.wartosc with
      | some t, some v => some (t, v)
      | _, _ => none)

/-- The Resource Series: valid rows sorted ascending by timestamp
(`sort_values("timestamp")`, stable). -/
def sorted_series (df : List Row) (resource_code : String) : List (ℚ × ℚ) :=
  List.insertionSort tsLe (coerced_series df resource_code)

/-- Consecutive timestamp deltas in hours
(`target["timestamp"].diff().dt.total_seconds().div(3600)`; the delta at
row `i` is `t_i - t_(i-1)`, and the first row's NaN delta is omitted). -/
def consecutive_deltas (s : List (ℚ × ℚ)) : List ℚ :=
  (s.zip s.tail).map (fun p => p.2.1 - p.1.1)

/-- pandas `Series.mode().iloc[0]`: the smallest among the values of
maximal multiplicity (`mode()` lists the most frequent values sorted
ascending); `none` on an empty list. -/
def pandasMode (l : List ℚ) : Option ℚ :=
  l.foldl (fun acc x =>
    match acc with
    | none => some x
    | some m =>
        if l.count m < l.count x ∨ (l.count x = l.count m ∧ x < m) then some x
        else some m) none

/-- The dominant step of a sorted series:
`float(diffs.mode().iloc[0]) if not diffs.empty else 0.25`, where `diffs`
is the positive consecutive deltas. -/
def dominantStepOf (s : List (ℚ × ℚ)) : ℚ :=
  match pandasMode ((consecutive_deltas s).filter (fun d => decide (0 < d))) with
  | some m => m
  | none => 1/4

/-- `tolerance = max(1e-9, step_hours * 0.01)`. -/
def gapTol (step_hours : ℚ) : ℚ :=
  max (1/1000000000) (step_hours / 100)

/-- One pass over the sorted series assigning each row its streak id
(`starts.cumsum()`).  `prevT` is the previous row's timestamp (`none` at
the first row), `prevZero` is `is_zero.shift(fill_value=False)`, `c` the
running count of streak starts.  A row's gap flag is true when its delta
is positive and differs from the dominant step by more than the tolerance
(`diffs[diffs > 0]` reindexed with `fillna(step_hours)` makes the first
row and non-positive deltas gap-free); a streak starts at a zero row whose
previous row was non-zero or whose gap flag is set. -/
def assignStreaks (step_hours tol : ℚ) :
    List (ℚ × ℚ) → Option ℚ → Bool → Nat → List (ℚ × ℚ × Nat)
  | [], _, _, _ => []
  | (t, v) :: rest, prevT, prevZero, c =>
    let gap : Bool :=
      match prevT with
      | none => false
      | some pt => decide (0 < t - pt ∧ gapTol step_hours < |t - pt - step_hours|)
    let isZ : Bool := decide (v = 0)
    let st : Bool := isZ && (!prevZero || gap)
    let c2 := if st then c + 1 else c
    (t, v, c2) :: assignStreaks step_hours tol rest (some t) isZ c2

/-- One detected zero streak: `streak_id`, `start_ts`, `end_ts`,
`intervals`, `hours`. -/
structure Streak where
  streak_id : Nat
  start_ts : ℚ
  end_ts : ℚ
  intervals : Nat
  hours : ℚ
deriving Repr, DecidableEq

/-- `zero_rows.groupby("streak_id").agg(...)`: group the zero rows
`(timestamp, streak_id)` by streak id (ids are produced in ascending
order, so first-occurrence order is ascending, matching pandas' sorted
group keys), taking min/max timestamp, the row count, and
`intervals * step_hours` hours. -/
def buildStreaks (zrows : List (ℚ × Nat)) (step_hours : ℚ) : List Streak :=
  ((zrows.map (·.2)).dedup).map (fun i =>
    let ts := (zrows.filter (fun z => z.2 == i)).map (·.1)
    { streak_id := i
      start_ts := seriesMin ts
      end_ts := seriesMax ts
      intervals := ts.length
      hours := (ts.length : ℚ) * step_hours })

/-- `zero_rows["streak_id"] = streak_id[is_zero]`: the zero rows of the
sorted series annotated with their streak ids, as `(timestamp, id)`
pairs. -/
def zero_rows_with_ids (df : List Row) (resource_code : String) : List (ℚ × Nat) :=
  ((assignStreaks (dominantStepOf (sorted_series df resource_code))
      (gapTol (dominantStepOf (sorted_series df resource_code)))
      (sorted_series df resource_code) none false 0).filter
    (fun x => x.2.1 == 0)).map (fun x => (x.1, x.2.2))

/-- `zero_streaks_hours`: consecutive zero-value streaks of one resource
and their lengths in hours, with the source's `ValueError`s as
`Except.error`.  (The timestamp-column existence check is trivial here
because `Row` always carries the column.) -/
def zero_streaks_hours (df : List Row) (resource_code : String) :
    Except String (List Streak) :=
  if records_for_resource df resource_code = [] then
    .error ("No records found for resource_code=" ++ resource_code)
  else if sorted_series df resource_code = [] then
    .error ("No valid timestamp/wartosc rows for " ++ resource_code)
  else
    .ok (buildStreaks (zero_rows_with_ids df resource_code)
      (dominantStepOf (sorted_series df resource_code)))

/-- The dominant step of one resource's series, as the spec describes it:
the statistical mode of the strictly positive consecutive deltas in hours,
falling back to 0.25 hours when no positive delta exists. -/
def dominant_step (df : List Row) (resource_code : String) : ℚ :=
  dominantStepOf (sorted_series df resource_code)

/-! ## Family subtotals (`p5_subtotals_by_family`) -/

/-- One row of a global statistics table, as consumed by
`p5_subtotals_by_family`: the resource code, its
`percentile_base_included` flag, and the four percentile columns
(`none` = NaN, the missing-value marker of ineligible codes). -/
structure StatsRow where
  resource_code : String
  percentile_base_included : Bool
  p1_non_zero_wartosc : Option ℚ
  p2_non_zero_wartosc : Option ℚ
  p3_non_zero_wartosc : Option ℚ
  p5_non_zero_wartosc : Option ℚ
deriving Repr, DecidableEq

/-- `str.extract(r"^([A-Za-z]+)", expand=False).fillna("UNKNOWN")`: the
leading run of ASCII letters of a resource code, or `"UNKNOWN"` when the
code does not start with a letter. -/
def code_family (resource_code : String) : String :=
  let f := resource_code.takeWhile Char.isAlpha
  if f = "" then "UNKNOWN" else f

/-- pandas `groupby(...).sum()` over an Option-valued (NaN-skipping)
column: missing entries count as 0. -/
def nanSum (l : List (Option ℚ)) : ℚ :=
  (l.map (fun x => x.getD 0)).sum

/-- One row of the family-subtotal table. -/
structure SubtotalRow where
  code_family : String
  resource_code_count : Nat
  percentile_base_code_count : Nat
  p1_non_zero_wartosc_subtotal : ℚ
  p2_non_zero_wartosc_subtotal : ℚ
  p3_non_zero_wartosc_subtotal : ℚ
  p5_non_zero_wartosc_subtotal : ℚ
deriving Repr, DecidableEq

/-- `p5_subtotals_by_family`: group the statistics rows by
`code_family(resource_code)`, count rows and percentile-base rows, sum the
four percentile columns NaN-skippingly, and sort by family key ascending
(pandas `groupby` sorts its keys).  (The missing-column check and the
`percentile_base_included` backfill of the source are trivial here because
`StatsRow` always carries every column.) -/
def p5_subtotals_by_family (stats_df : List StatsRow) : List SubtotalRow :=
  let fams := (stats_df.map (fun r => code_family r.resource_code)).dedup
  (List.insertionSort (· ≤ ·) fams).map (fun fam =>
    let members := stats_df.filter (fun r => code_family r.resource_code == fam)
    { code_family := fam
      resource_code_count := members.length
      percentile_base_code_count :=
        (members.filter (fun r => r.percentile_base_included)).length
      p1_non_zero_wartosc_subtotal := nanSum (members.map (·.p1_non_zero_wartosc))
      p2_non_zero_wartosc_subtotal := nanSum (members.map (·.p2_non_zero_wartosc))
      p3_non_zero_wartosc_subtotal := nanSum (members.map (·.p3_non_zero_wartosc))
      p5_non_zero_wartosc_subtotal := nanSum (members.map (·.p5_non_zero_wartosc)) })

/-! ## Helper lemmas -/

lemma getD_le_getD_of_sorted {xs : List ℚ} (hs : List.Sorted (· ≤ ·) xs) {i j : ℕ}
    (hij : i ≤ j) (hj : j < xs.length) : xs.getD i 0 ≤ xs.getD j 0 := by
  have hi : i < xs.length := lt_of_le_of_lt hij hj
  rw [List.getD_eq_getElem _ _ hi, List.getD_eq_getElem _ _ hj]
  rcases lt_or_eq_of_le hij with h | h
  · exact List.pairwise_iff_getElem.mp hs i j hi hj h
  · subst h; exact le_refl _

lemma interp_mono {xs : List ℚ} (hs : List.Sorted (· ≤ ·) xs) (hne : xs ≠ [])
    {h1 h2 : ℚ} (h0 : 0 ≤ h1) (h12 : h1 ≤ h2) (hub : h2 ≤ (xs.length : ℚ) - 1) :
    interp xs h1 ≤ interp xs h2 := by
  have hn : 1 ≤ xs.length := List.length_pos.mpr hne
  have h0' : 0 ≤ h2 := le_trans h0 h12
  have hf1 : (0 : ℤ) ≤ ⌊h1⌋ := Int.floor_nonneg.mpr h0
  have hf2 : (0 : ℤ) ≤ ⌊h2⌋ := Int.floor_nonneg.mpr h0'
  have hc1 : ((⌊h1⌋.toNat : ℕ) : ℚ) ≤ h1 := by
    have h := Int.floor_le h1
    have h' : ((⌊h1⌋.toNat : ℤ) : ℚ) ≤ h1 := by rw [Int.toNat_of_nonneg hf1]; exact h
    exact_mod_cast h'
  have hc2 : ((⌊h2⌋.toNat : ℕ) : ℚ) ≤ h2 := by
    have h := Int.floor_le h2
    have h' : ((⌊h2⌋.toNat : ℤ) : ℚ) ≤ h2 := by rw [Int.toNat_of_nonneg hf2]; exact h
    exact_mod_cast h'
  have hlt1 : h1 < ((⌊h1⌋.toNat : ℕ) : ℚ) + 1 := by
    have h := Int.lt_floor_add_one h1
    have h' : h1 < ((⌊h1⌋.toNat : ℤ) : ℚ) + 1 := by rw [Int.toNat_of_nonneg hf1]; exact h
    exact_mod_cast h'
  have hle1 : ⌊h1⌋.toNat ≤ xs.length - 1 := by
    have ha : ((⌊h1⌋.toNat : ℕ) : ℚ) ≤ ((xs.length - 1 : ℕ) : ℚ) := by
      rw [Nat.cast_sub hn, Nat.cast_one]
      exact le_trans hc1 (le_trans h12 hub)
    exact_mod_cast ha
  have hle2 : ⌊h2⌋.toNat ≤ xs.length - 1 := by
    have ha : ((⌊h2⌋.toNat : ℕ) : ℚ) ≤ ((xs.length - 1 : ℕ) : ℚ) := by
      rw [Nat.cast_sub hn, Nat.cast_one]
      exact le_trans hc2 hub
    exact_mod_cast ha
  have hlt2n : ⌊h2⌋.toNat < xs.length := by omega
  have hi12 : ⌊h1⌋.toNat ≤ ⌊h2⌋.toNat := Int.toNat_le_toNat (Int.floor_le_floor h12)
  have hm1 : min (⌊h1⌋.toNat + 1) (xs.length - 1) < xs.length := by omega
  have hm2 : min (⌊h2⌋.toNat + 1) (xs.length - 1) < xs.length := by omega
  have hlohi1 : xs.getD (⌊h1⌋.toNat) 0 ≤
      xs.getD (min (⌊h1⌋.toNat + 1) (xs.length - 1)) 0 :=
    getD_le_getD_of_sorted hs (by omega) hm1
  have hlohi2 : xs.getD (⌊h2⌋.toNat) 0 ≤
      xs.getD (min (⌊h2⌋.toNat + 1) (xs.length - 1)) 0 :=
    getD_le_getD_of_sorted hs (by omega) hm2
  unfold interp
  rcases eq_or_lt_of_le hi12 with heq | hlt
  · rw [heq]
    nlinarith [hlohi2, h12]
  · have bnd1 : xs.getD (⌊h1⌋.toNat) 0 +
        (h1 - ((⌊h1⌋.toNat : ℕ) : ℚ)) *
          (xs.getD (min (⌊h1⌋.toNat + 1) (xs.length - 1)) 0 - xs.getD (⌊h1⌋.toNat) 0) ≤
        xs.getD (min (⌊h1⌋.toNat + 1) (xs.length - 1)) 0 := by
      nlinarith [hlohi1, hlt1, hc1]
    have bnd2 : xs.getD (⌊h2⌋.toNat) 0 ≤
        xs.getD (⌊h2⌋.toNat) 0 +
          (h2 - ((⌊h2⌋.toNat : ℕ) : ℚ)) *
            (xs.getD (min (⌊h2⌋.toNat + 1) (xs.length - 1)) 0 - xs.getD (⌊h2⌋.toNat) 0) := by
      nlinarith [hlohi2, hc2]
    have mid : xs.getD (min (⌊h1⌋.toNat + 1) (xs.length - 1)) 0 ≤
        xs.getD (⌊h2⌋.toNat) 0 :=
      getD_le_getD_of_sorted hs (by omega) hlt2n
    linarith

lemma quantile_le_quantile {xs : List ℚ} (hne : xs ≠ []) {q1 q2 : ℚ}
    (hq0 : 0 ≤ q1) (hq : q1 ≤ q2) (hq1 : q2 ≤ 1) :
    quantile xs q1 ≤ quantile xs q2 := by
  unfold quantile
  have hsp : (List.insertionSort (· ≤ ·) xs).Perm xs := List.perm_insertionSort _ _
  have hsne : List.insertionSort (· ≤ ·) xs ≠ [] := by
    intro h
    exact hne (List.eq_nil_of_length_eq_zero (by rw [← hsp.length_eq, h]; rfl))
  have hss : (List.insertionSort (· ≤ ·) xs).Sorted (· ≤ ·) :=
    List.sorted_insertionSort _ _
  have hempty : (List.insertionSort (· ≤ ·) xs).isEmpty = false := by
    cases h : List.insertionSort (· ≤ ·) xs with
    | nil => exact absurd h hsne
    | cons a l => rfl
  simp only [hempty, Bool.false_eq_true, if_false]
  have hlen : (0 : ℚ) ≤ ((List.insertionSort (· ≤ ·) xs).length : ℚ) - 1 := by
    have : 1 ≤ (List.insertionSort (· ≤ ·) xs).length := List.length_pos.mpr hsne
    have h' : (1 : ℚ) ≤ ((List.insertionSort (· ≤ ·) xs).length : ℚ) := by exact_mod_cast this
    linarith
  exact interp_mono hss hsne (mul_nonneg hq0 hlen)
    (mul_le_mul_of_nonneg_right hq hlen) (mul_le_of_le_one_left hlen hq1)

lemma seriesMin_mem_and_le {l : List ℚ} (h : l ≠ []) :
    seriesMin l ∈ l ∧ ∀ a ∈ l, seriesMin l ≤ a := by
  cases hm : l.minimum with
  | top => exact absurd (List.minimum_eq_top.mp hm) h
  | coe m =>
    have hc := List.minimum_eq_coe_iff.mp hm
    have : seriesMin l = m := by rw [seriesMin, hm, WithTop.untop'_coe]
    rw [this]
    exact hc

lemma seriesMin_pair (a b : ℚ) : seriesMin [a, b] = min a b := by
  have hm : ([a, b] : List ℚ).minimum = (min a b : ℚ) := by
    rw [List.minimum_eq_coe_iff]
    refine ⟨?_, ?_⟩
    · rcases min_choice a b with h | h <;> simp [h]
    · intro x hx
      rcases List.mem_pair.mp hx with rfl | rfl
      · exact min_le_left _ _
      · exact min_le_right _ _
  rw [seriesMin, hm, WithTop.untop'_coe]

lemma seriesMin_single (a : ℚ) : seriesMin [a] = a := by
  have hm : ([a] : List ℚ).minimum = (a : ℚ) := by
    rw [List.minimum_eq_coe_iff]; simp
  rw [seriesMin, hm, WithTop.untop'_coe]

lemma seriesMax_pair (a b : ℚ) : seriesMax [a, b] = max a b := by
  have hm : ([a, b] : List ℚ).maximum = (max a b : ℚ) := by
    rw [List.maximum_eq_coe_iff]
    refine ⟨?_, ?_⟩
    · rcases max_choice a b with h | h <;> simp [h]
    · intro x hx
      rcases List.mem_pair.mp hx with rfl | rfl
      · exact le_max_left _ _
      · exact le_max_right _ _
  rw [seriesMax, hm, WithBot.unbot'_coe]

lemma seriesMax_single (a : ℚ) : seriesMax [a] = a := by
  have hm : ([a] : List ℚ).maximum = (a : ℚ) := by
    rw [List.maximum_eq_coe_iff]; simp
  rw [seriesMax, hm, WithBot.unbot'_coe]

/-- `assignStreaks` only annotates the series rows: projecting the streak id
away gives back the input series. -/
lemma assignStreaks_map_proj (step_hours tol : ℚ) :
    ∀ (l : List (ℚ × ℚ)) (prevT : Option ℚ) (prevZero : Bool) (c : Nat),
      (assignStreaks step_hours tol l prevT prevZero c).map (fun x => (x.1, x.2.1)) = l
  | [], _, _, _ => rfl
  | (t, v) :: rest, prevT, prevZero, c => by
    simp only [assignStreaks, List.map_cons]
    rw [assignStreaks_map_proj step_hours tol rest]

/-- The total interval count over the streaks built from a zero-row table is
the number of zero rows. -/
lemma buildStreaks_sum_intervals (zrows : List (ℚ × Nat)) (step_hours : ℚ) :
    ((buildStreaks zrows step_hours).map (·.intervals)).sum = zrows.length := by
  unfold buildStreaks
  rw [List.map_map]
  have hcnt : ∀ i : Nat,
      ((zrows.filter (fun z => z.2 == i)).map (·.1)).length =
        List.count i (zrows.map (·.2)) := by
    intro i
    rw [List.length_map, List.count, List.countP_map,
      ← List.countP_eq_length_filter]
    rfl
  have hmapeq :
      ((zrows.map (·.2)).dedup).map
          ((fun st => st.intervals) ∘ (fun i =>
            let ts := (zrows.filter (fun z => z.2 == i)).map (·.1)
            ({ streak_id := i, start_ts := seriesMin ts, end_ts := seriesMax ts,
               intervals := ts.length,
               hours := (ts.length : ℚ) * step_hours } : Streak))) =
        ((zrows.map (·.2)).dedup).map (fun i => List.count i (zrows.map (·.2))) :=
    List.map_congr_left (fun i _ => hcnt i)
  rw [hmapeq]
  have := List.sum_map_count_dedup_eq_length (zrows.map (·.2))
  rw [← List.length_map zrows (·.2)]
  exact this

instance {ε α : Type _} [DecidableEq ε] [DecidableEq α] : DecidableEq (Except ε α) :=
  fun x y =>
    match x, y with
    | .error a, .error b =>
      match decEq a b with
      | isTrue h => isTrue (by rw [h])
      | isFalse h => isFalse (fun hc => h (Except.error.inj hc))
    | .ok a, .ok b =>
      match decEq a b with
      | isTrue h => isTrue (by rw [h])
      | isFalse h => isFalse (fun hc => h (Except.ok.inj hc))
    | .error _, .ok _ => isFalse (fun hc => Except.noConfusion hc)
    | .ok _, .error _ => isFalse (fun hc => Except.noConfusion hc)

lemma string_append_ne {a b : String} (c : String) (h : a ≠ b) : a ++ c ≠ b ++ c := by
  intro hc
  apply h
  have hdata : a.data ++ c.data = b.data ++ c.data := by
    have h1 := congrArg String.data hc
    simpa [String.data_append] using h1
  have hd : a.data = b.data := List.append_cancel_right hdata
  cases a; cases b
  exact congrArg String.mk hd

/-! ## The claims -/

/-- C5: for every resource series with at least one non-zero numeric value,
the low percentiles of the non-zero values are non-decreasing in the
percentile parameter: p1 ≤ p2 ≤ p3 ≤ p5. -/
theorem claim_C5_percentiles_monotone (df : List Row) (resource_code : String)
    (hne : non_zero_wartosc df resource_code ≠ []) :
    quantile (non_zero_wartosc df resource_code) (1/100) ≤
      quantile (non_zero_wartosc df resource_code) (2/100) ∧
    quantile (non_zero_wartosc df resource_code) (2/100) ≤
      quantile (non_zero_wartosc df resource_code) (3/100) ∧
    quantile (non_zero_wartosc df resource_code) (3/100) ≤
      quantile (non_zero_wartosc df resource_code) (5/100) :=
  ⟨quantile_le_quantile hne (by norm_num) (by norm_num) (by norm_num),
   quantile_le_quantile hne (by norm_num) (by norm_num) (by norm_num),
   quantile_le_quantile hne (by norm_num) (by norm_num) (by norm_num)⟩

/-- Witness for C5 at a concrete series: resource `"X"` with non-zero
values `[5, -1, 3]`. -/
theorem claim_C5_witness :
    non_zero_wartosc
        [⟨some "X", some 5, none⟩, ⟨some "X", some (-1), none⟩,
         ⟨some "X", some 0, none⟩, ⟨some "X", some 3, none⟩] "X" ≠ [] ∧
    (quantile (non_zero_wartosc
        [⟨some "X", some 5, none⟩, ⟨some "X", some (-1), none⟩,
         ⟨some "X", some 0, none⟩, ⟨some "X", some 3, none⟩] "X") (1/100) ≤
      quantile (non_zero_wartosc
        [⟨some "X", some 5, none⟩, ⟨some "X", some (-1), none⟩,
         ⟨some "X", some 0, none⟩, ⟨some "X", some 3, none⟩] "X") (2/100) ∧
    quantile (non_zero_wartosc
        [⟨some "X", some 5, none⟩, ⟨some "X", some (-1), none⟩,
         ⟨some "X", some 0, none⟩, ⟨some "X", some 3, none⟩] "X") (2/100) ≤
      quantile (non_zero_wartosc
        [⟨some "X", some 5, none⟩, ⟨some "X", some (-1), none⟩,
         ⟨some "X", some 0, none⟩, ⟨some "X", some 3, none⟩] "X") (3/100) ∧
    quantile (non_zero_wartosc
        [⟨some "X", some 5, none⟩, ⟨some "X", some (-1), none⟩,
         ⟨some "X", some 0, none⟩, ⟨some "X", some 3, none⟩] "X") (3/100) ≤
      quantile (non_zero_wartosc
        [⟨some "X", some 5, none⟩, ⟨some "X", some (-1), none⟩,
         ⟨some "X", some 0, none⟩, ⟨some "X", some 3, none⟩] "X") (5/100)) :=
  ⟨by with_unfolding_all decide, claim_C5_percentiles_monotone _ "X" (by with_unfolding_all decide)⟩

/-- C2: the per-resource statistics engine fails with a descriptive error
under each of the four conditions — no records, no numeric values, no
positive values, no non-zero values — and the four error messages defined
for them are pairwise distinct.  (When no non-zero value exists, no
positive value exists either, so the error surfaced there is the
no-positive-values one.) -/
theorem claim_C2_error_conditions (df : List Row) (resource_code : String) :
    (records_for_resource df resource_code = [] →
      resource_wartosc_stats df resource_code =
        .error ("No records found for resource_code=" ++ resource_code)) ∧
    (records_for_resource df resource_code ≠ [] →
      numeric_wartosc df resource_code = [] →
      resource_wartosc_stats df resource_code =
        .error ("No numeric wartosc values for resource_code=" ++ resource_code)) ∧
    (numeric_wartosc df resource_code ≠ [] →
      positive_wartosc df resource_code = [] →
      resource_wartosc_stats df resource_code =
        .error ("No positive wartosc values for resource_code=" ++ resource_code)) ∧
    (numeric_wartosc df resource_code ≠ [] →
      non_zero_wartosc df resource_code = [] →
      resource_wartosc_stats df resource_code =
        .error ("No positive wartosc values for resource_code=" ++ resource_code)) ∧
    (["No records found for resource_code=" ++ resource_code,
      "No numeric wartosc values for resource_code=" ++ resource_code,
      "No positive wartosc values for resource_code=" ++ resource_code,
      "No non-zero wartosc values for resource_code=" ++ resource_code] :
        List String).Nodup := by
  have hrecnum : records_for_resource df resource_code = [] →
      numeric_wartosc df resource_code = [] := by
    intro h
    rw [numeric_wartosc, h]
    exact List.filterMap_nil _
  have hpos_of_nz : non_zero_wartosc df resource_code = [] →
      positive_wartosc df resource_code = [] := by
    intro h
    rw [non_zero_wartosc, List.filter_eq_nil_iff] at h
    rw [positive_wartosc, List.filter_eq_nil_iff]
    intro v hv
    have hz := h v hv
    simp only [decide_eq_true_eq] at hz ⊢
    push_neg at hz
    simp [hz]
  refine ⟨?_, ?_, ?_, ?_, ?_⟩
  · intro h1
    rw [resource_wartosc_stats, if_pos h1]
  · intro h1 h2
    rw [resource_wartosc_stats, if_neg h1, if_pos h2]
  · intro h2 h3
    have h1 : records_for_resource df resource_code ≠ [] :=
      fun h => h2 (hrecnum h)
    rw [resource_wartosc_stats, if_neg h1, if_neg h2, if_pos h3]
  · intro h2 h4
    have h1 : records_for_resource df resource_code ≠ [] :=
      fun h => h2 (hrecnum h)
    rw [resource_wartosc_stats, if_neg h1, if_neg h2, if_pos (hpos_of_nz h4)]
  · refine List.nodup_cons.mpr ⟨?_, List.nodup_cons.mpr ⟨?_, List.nodup_cons.mpr
      ⟨?_, List.nodup_singleton _⟩⟩⟩
    · simp only [List.mem_cons, List.mem_singleton, List.not_mem_nil, or_false]
      push_neg
      exact ⟨string_append_ne _ (by decide), string_append_ne _ (by decide),
        string_append_ne _ (by decide)⟩
    · simp only [List.mem_cons, List.mem_singleton, List.not_mem_nil, or_false]
      push_neg
      exact ⟨string_append_ne _ (by decide), string_append_ne _ (by decide)⟩
    · simp only [List.mem_singleton]
      exact string_append_ne _ (by decide)

/-- Witness for C2: each of the four conditions exercised at a concrete
input (empty table; non-numeric value; only a negative value; only
zeros). -/
theorem claim_C2_witness :
    resource_wartosc_stats [] "X" = .error "No records found for resource_code=X" ∧
    resource_wartosc_stats [⟨some "X", none, none⟩] "X" =
      .error "No numeric wartosc values for resource_code=X" ∧
    resource_wartosc_stats [⟨some "X", some (-2), none⟩] "X" =
      .error "No positive wartosc values for resource_code=X" ∧
    resource_wartosc_stats [⟨some "X", some 0, none⟩] "X" =
      .error "No positive wartosc values for resource_code=X" :=
  ⟨(claim_C2_error_conditions [] "X").1 (by with_unfolding_all decide),
   (claim_C2_error_conditions [⟨some "X", none, none⟩] "X").2.1
     (by with_unfolding_all decide) (by with_unfolding_all decide),
   (claim_C2_error_conditions [⟨some "X", some (-2), none⟩] "X").2.2.1
     (by with_unfolding_all decide) (by with_unfolding_all decide),
   (claim_C2_error_conditions [⟨some "X", some 0, none⟩] "X").2.2.2.1
     (by with_unfolding_all decide) (by with_unfolding_all decide)⟩

/-- C6: whenever the statistics engine succeeds, the minimum positive value
it returns is a lower bound of every positive value of the series and is
itself one of the series' numeric values. -/
theorem claim_C6_min_positive_lower_bound (df : List Row) (resource_code : String)
    (m p5 : ℚ) (h : resource_wartosc_stats df resource_code = .ok (m, p5)) :
    (∀ v ∈ numeric_wartosc df resource_code, 0 < v → m ≤ v) ∧
    m ∈ numeric_wartosc df resource_code := by
  unfold resource_wartosc_stats at h
  split_ifs at h with h1 h2 h3 h4
  simp only [Except.ok.injEq, Prod.mk.injEq] at h
  obtain ⟨hm, -⟩ := h
  subst hm
  have hmin := seriesMin_mem_and_le h3
  constructor
  · intro v hv hvpos
    exact hmin.2 v (List.mem_filter.mpr ⟨hv, by simpa using hvpos⟩)
  · exact List.mem_of_mem_filter hmin.1

/-- Witness for C6 at the spec's end-to-end series (values `[5,0,0,0,3,0]`,
minimum positive value 3). -/
theorem claim_C6_witness :
    resource_wartosc_stats
        [⟨some "X1", some 5, some 0⟩, ⟨some "X1", some 0, some (1/4)⟩,
         ⟨some "X1", some 0, some (2/4)⟩, ⟨some "X1", some 0, some (3/4)⟩,
         ⟨some "X1", some 3, some 1⟩, ⟨some "X1", some 0, some (5/4)⟩] "X1" =
      .ok (3, 31/10) ∧
    ((∀ v ∈ numeric_wartosc
        [⟨some "X1", some 5, some 0⟩, ⟨some "X1", some 0, some (1/4)⟩,
         ⟨some "X1", some 0, some (2/4)⟩, ⟨some "X1", some 0, some (3/4)⟩,
         ⟨some "X1", some 3, some 1⟩, ⟨some "X1", some 0, some (5/4)⟩] "X1",
        0 < v → (3:ℚ) ≤ v) ∧
      (3:ℚ) ∈ numeric_wartosc
        [⟨some "X1", some 5, some 0⟩, ⟨some "X1", some 0, some (1/4)⟩,
         ⟨some "X1", some 0, some (2/4)⟩, ⟨some "X1", some 0, some (3/4)⟩,
         ⟨some "X1", some 3, some 1⟩, ⟨some "X1", some 0, some (5/4)⟩] "X1") :=
  ⟨by with_unfolding_all decide, claim_C6_min_positive_lower_bound _ "X1" 3 (31/10) (by with_unfolding_all decide)⟩

/-- C7: a series that is non-empty after coercion but contains no
exactly-zero value yields an empty streak table, not an error. -/
theorem claim_C7_no_zero_rows_empty_result (df : List Row) (resource_code : String)
    (hne : coerced_series df resource_code ≠ [])
    (hz : ∀ r ∈ coerced_series df resource_code, r.2 ≠ 0) :
    zero_streaks_hours df resource_code = .ok [] := by
  have hrec : ¬ records_for_resource df resource_code = [] := by
    intro h
    apply hne
    rw [coerced_series, h]
    exact List.filterMap_nil _
  have hperm : (sorted_series df resource_code).Perm (coerced_series df resource_code) :=
    List.perm_insertionSort _ _
  have hsne : ¬ sorted_series df resource_code = [] := by
    intro h
    apply hne
    exact List.eq_nil_of_length_eq_zero (by rw [← hperm.length_eq, h]; rfl)
  rw [zero_streaks_hours, if_neg hrec, if_neg hsne]
  have hflt : (assignStreaks (dominantStepOf (sorted_series df resource_code))
      (gapTol (dominantStepOf (sorted_series df resource_code)))
      (sorted_series df resource_code) none false 0).filter
        (fun x => x.2.1 == 0) = [] := by
    rw [List.filter_eq_nil_iff]
    intro x hx
    have hproj : (x.1, x.2.1) ∈ sorted_series df resource_code := by
      rw [← assignStreaks_map_proj (dominantStepOf (sorted_series df resource_code))
        (gapTol (dominantStepOf (sorted_series df resource_code)))
        (sorted_series df resource_code) none false 0]
      exact List.mem_map_of_mem _ hx
    have hmem : (x.1, x.2.1) ∈ coerced_series df resource_code := hperm.mem_iff.mp hproj
    have := hz _ hmem
    simpa using this
  rw [zero_rows_with_ids, hflt]
  rfl

/-- Witness for C7: a coercion-valid series with no zero values. -/
theorem claim_C7_witness :
    coerced_series [⟨some "X", some 5, some 0⟩, ⟨some "X", some 2, some 1⟩] "X" ≠ [] ∧
    (∀ r ∈ coerced_series [⟨some "X", some 5, some 0⟩, ⟨some "X", some 2, some 1⟩] "X",
      r.2 ≠ 0) ∧
    zero_streaks_hours [⟨some "X", some 5, some 0⟩, ⟨some "X", some 2, some 1⟩] "X" =
      .ok [] :=
  ⟨by with_unfolding_all decide, by with_unfolding_all decide,
   claim_C7_no_zero_rows_empty_result _ "X" (by with_unfolding_all decide)
     (by with_unfolding_all decide)⟩

/-- C8: membership in the percentile-eligible ids is exactly membership in
the distinct resource ids minus the excluded prefixes; in particular a
resource id starting with `"ZRN"` that appears in the table is among the
distinct ids but not among the eligible ids. -/
theorem claim_C8_exclusion_filter (df : List Row) (code : String) :
    (code ∈ get_percentile_base_codes df ↔
      code ∈ all_codes df ∧ ¬ is_excluded_from_percentiles code) ∧
    (some code ∈ df.map (·.resource_code) → code.startsWith "ZRN" →
      code ∈ all_codes df ∧ code ∉ get_percentile_base_codes df) := by
  have hmemiff : ∀ c : String, c ∈ get_percentile_base_codes df ↔
      c ∈ all_codes df ∧ ¬ is_excluded_from_percentiles c := by
    intro c
    rw [get_percentile_base_codes, List.mem_filter]
    simp only [decide_eq_true_eq, Bool.not_eq_true]
  refine ⟨hmemiff code, fun hmem hzrn => ?_⟩
  have hall : code ∈ all_codes df := by
    rw [all_codes]
    rw [(List.perm_insertionSort (· ≤ ·) _).mem_iff, List.mem_dedup]
    obtain ⟨r, hr, hrc⟩ := List.mem_map.mp hmem
    exact List.mem_filterMap.mpr ⟨r, hr, hrc⟩
  have hexc : is_excluded_from_percentiles code = true := by
    rw [is_excluded_from_percentiles, List.any_eq_true]
    exact ⟨"ZRN", by decide, hzrn⟩
  refine ⟨hall, fun hmem2 => ?_⟩
  have := (hmemiff code).mp hmem2
  rw [hexc] at this
  exact absurd this.2 (by simp)

/-- Witness for C8 at a table holding `"ZRN 1"` and `"BEL 2-02"`. -/
theorem claim_C8_witness :
    ((("ZRN 1" ∈ get_percentile_base_codes
        [⟨some "ZRN 1", some 1, none⟩, ⟨some "BEL 2-02", some 1, none⟩]) ↔
      ("ZRN 1" ∈ all_codes
        [⟨some "ZRN 1", some 1, none⟩, ⟨some "BEL 2-02", some 1, none⟩] ∧
       ¬ is_excluded_from_percentiles "ZRN 1")) ∧
     (some "ZRN 1" ∈ ([⟨some "ZRN 1", some 1, none⟩,
        ⟨some "BEL 2-02", some 1, none⟩] : List Row).map (·.resource_code) →
      "ZRN 1".startsWith "ZRN" →
      "ZRN 1" ∈ all_codes
        [⟨some "ZRN 1", some 1, none⟩, ⟨some "BEL 2-02", some 1, none⟩] ∧
      "ZRN 1" ∉ get_percentile_base_codes
        [⟨some "ZRN 1", some 1, none⟩, ⟨some "BEL 2-02", some 1, none⟩])) :=
  claim_C8_exclusion_filter
    [⟨some "ZRN 1", some 1, none⟩, ⟨some "BEL 2-02", some 1, none⟩] "ZRN 1"

/-- C10: when no value of the table is strictly positive,
`min_positive_per_resource` returns the empty table (no error), while the
per-resource statistics engine can never succeed on such a table. -/
theorem claim_C10_empty_vs_raise (df : List Row)
    (hnp : ∀ r ∈ df, ∀ v, r.wartosc = some v → v ≤ 0) :
    min_positive_per_resource df = [] ∧
    ∀ resource_code m p5,
      resource_wartosc_stats df resource_code ≠ .ok (m, p5) := by
  have hposrows : positive_rows df = [] := by
    rw [positive_rows, List.filter_eq_nil_iff]
    intro r hr
    cases hw : r.wartosc with
    | none => simp
    | some v =>
      have := hnp r hr v hw
      simp only [decide_eq_true_eq]
      intro hc
      exact absurd (lt_of_lt_of_le hc this) (lt_irrefl 0)
  constructor
  · rw [min_positive_per_resource]
    show (if positive_rows df = [] then _ else _) = _
    rw [if_pos hposrows]
  · intro resource_code m p5 hok
    have hpos : positive_wartosc df resource_code = [] := by
      rw [positive_wartosc, List.filter_eq_nil_iff]
      intro v hv
      obtain ⟨r, hr, hrv⟩ := List.mem_filterMap.mp hv
      have hrdf : r ∈ df := List.mem_of_mem_filter hr
      have := hnp r hrdf v hrv
      simp only [decide_eq_true_eq]
      intro hc
      exact absurd (lt_of_lt_of_le hc this) (lt_irrefl 0)
    rw [resource_wartosc_stats] at hok
    split_ifs at hok

/-- Witness for C10: a table with only a zero and a negative value. -/
theorem claim_C10_witness :
    min_positive_per_resource
      [⟨some "X", some 0, none⟩, ⟨some "Y", some (-2), none⟩] = [] ∧
    resource_wartosc_stats
      [⟨some "X", some 0, none⟩, ⟨some "Y", some (-2), none⟩] "X" ≠ .ok (1, 1) :=
  ⟨(claim_C10_empty_vs_raise _ (by with_unfolding_all decide)).1,
   (claim_C10_empty_vs_raise _ (by with_unfolding_all decide)).2 "X" 1 1⟩

/-- C3: the sum of interval counts over all detected zero streaks equals
the number of readings of the series whose value is exactly zero and whose
timestamp and value both pass coercion. -/
theorem claim_C3_interval_count_conservation (df : List Row) (resource_code : String)
    (streaks : List Streak) (h : zero_streaks_hours df resource_code = .ok streaks) :
    (streaks.map (·.intervals)).sum =
      ((coerced_series df resource_code).filter (fun r => r.2 == 0)).length := by
  rw [zero_streaks_hours] at h
  split_ifs at h with h1 h2
  injection h with h
  subst h
  rw [buildStreaks_sum_intervals, zero_rows_with_ids, List.length_map,
    ← List.countP_eq_length_filter, ← List.countP_eq_length_filter]
  have hstep : ((assignStreaks (dominantStepOf (sorted_series df resource_code))
      (gapTol (dominantStepOf (sorted_series df resource_code)))
      (sorted_series df resource_code) none false 0).map
        (fun x => (x.1, x.2.1))) = sorted_series df resource_code :=
    assignStreaks_map_proj _ _ _ _ _ _
  calc List.countP (fun x => x.2.1 == 0)
        (assignStreaks (dominantStepOf (sorted_series df resource_code))
          (gapTol (dominantStepOf (sorted_series df resource_code)))
          (sorted_series df resource_code) none false 0)
      = List.countP (fun r => r.2 == 0)
          ((assignStreaks (dominantStepOf (sorted_series df resource_code))
            (gapTol (dominantStepOf (sorted_series df resource_code)))
            (sorted_series df resource_code) none false 0).map
              (fun x => (x.1, x.2.1))) := by
        rw [List.countP_map]
        rfl
    _ = List.countP (fun r => r.2 == 0) (sorted_series df resource_code) := by
        rw [hstep]
    _ = List.countP (fun r => r.2 == 0) (coerced_series df resource_code) :=
        (List.perm_insertionSort tsLe _).countP_eq _

/-- Witness for C3 at the spec's end-to-end series: streaks of 3 and 1
intervals against 4 zero readings. -/
theorem claim_C3_witness :
    zero_streaks_hours
        [⟨some "X1", some 5, some 0⟩, ⟨some "X1", some 0, some (1/4)⟩,
         ⟨some "X1", some 0, some (2/4)⟩, ⟨some "X1", some 0, some (3/4)⟩,
         ⟨some "X1", some 3, some 1⟩, ⟨some "X1", some 0, some (5/4)⟩] "X1" =
      .ok [⟨1, 1/4, 3/4, 3, 3/4⟩, ⟨2, 5/4, 5/4, 1, 1/4⟩] ∧
    ((([⟨1, 1/4, 3/4, 3, 3/4⟩, ⟨2, 5/4, 5/4, 1, 1/4⟩] : List Streak).map
        (·.intervals)).sum =
      ((coerced_series
        [⟨some "X1", some 5, some 0⟩, ⟨some "X1", some 0, some (1/4)⟩,
         ⟨some "X1", some 0, some (2/4)⟩, ⟨some "X1", some 0, some (3/4)⟩,
         ⟨some "X1", some 3, some 1⟩, ⟨some "X1", some 0, some (5/4)⟩] "X1").filter
          (fun r => r.2 == 0)).length) :=
  ⟨by with_unfolding_all decide,
   claim_C3_interval_count_conservation _ "X1" _ (by with_unfolding_all decide)⟩

/-- C4: every detected zero streak's duration in hours is its interval
count times the dominant step, where the dominant step falls back to 0.25
hours when no strictly positive consecutive delta exists. -/
theorem claim_C4_hours_eq_intervals_times_step (df : List Row) (resource_code : String)
    (streaks : List Streak) (h : zero_streaks_hours df resource_code = .ok streaks) :
    (∀ st ∈ streaks, st.hours = (st.intervals : ℚ) * dominant_step df resource_code) ∧
    ((consecutive_deltas (sorted_series df resource_code)).filter
        (fun d => decide (0 < d)) = [] →
      dominant_step df resource_code = 1/4) := by
  constructor
  · rw [zero_streaks_hours] at h
    split_ifs at h with h1 h2
    injection h with h
    subst h
    intro st hst
    rw [buildStreaks] at hst
    obtain ⟨i, hi, rfl⟩ := List.mem_map.mp hst
    rfl
  · intro hflt
    rw [dominant_step, dominantStepOf, hflt]
    rfl

/-- Witness for C4 at the spec's end-to-end series (dominant step 0.25 h,
streak hours 0.75 = 3 × 0.25 and 0.25 = 1 × 0.25). -/
theorem claim_C4_witness :
    zero_streaks_hours
        [⟨some "X1", some 5, some 0⟩, ⟨some "X1", some 0, some (1/4)⟩,
         ⟨some "X1", some 0, some (2/4)⟩, ⟨some "X1", some 0, some (3/4)⟩,
         ⟨some "X1", some 3, some 1⟩, ⟨some "X1", some 0, some (5/4)⟩] "X1" =
      .ok [⟨1, 1/4, 3/4, 3, 3/4⟩, ⟨2, 5/4, 5/4, 1, 1/4⟩] ∧
    (∀ st ∈ ([⟨1, 1/4, 3/4, 3, 3/4⟩, ⟨2, 5/4, 5/4, 1, 1/4⟩] : List Streak),
      st.hours = (st.intervals : ℚ) * dominant_step
        [⟨some "X1", some 5, some 0⟩, ⟨some "X1", some 0, some (1/4)⟩,
         ⟨some "X1", some 0, some (2/4)⟩, ⟨some "X1", some 0, some (3/4)⟩,
         ⟨some "X1", some 3, some 1⟩, ⟨some "X1", some 0, some (5/4)⟩] "X1") :=
  ⟨by with_unfolding_all decide,
   (claim_C4_hours_eq_intervals_times_step _ "X1" _ (by with_unfolding_all decide)).1⟩

/-- C9: family subtotaling keys each row by the leading alphabetic run of
its resource id (`"BEL 2-02" ↦ "BEL"`, `"123XYZ" ↦ "UNKNOWN"`), groups by
that key summing percentile columns and member counts, and returns rows
sorted by family key ascending. -/
theorem claim_C9_family_subtotals :
    code_family "BEL 2-02" = "BEL" ∧
    code_family "123XYZ" = "UNKNOWN" ∧
    ∀ stats_df : List StatsRow,
      ((p5_subtotals_by_family stats_df).map (·.code_family)).Sorted (· ≤ ·) ∧
      ∀ st ∈ p5_subtotals_by_family stats_df,
        st.resource_code_count =
          (stats_df.filter
            (fun r => code_family r.resource_code == st.code_family)).length ∧
        st.percentile_base_code_count =
          ((stats_df.filter
            (fun r => code_family r.resource_code == st.code_family)).filter
              (fun r => r.percentile_base_included)).length ∧
        st.p1_non_zero_wartosc_subtotal =
          nanSum ((stats_df.filter
            (fun r => code_family r.resource_code == st.code_family)).map
              (·.p1_non_zero_wartosc)) ∧
        st.p2_non_zero_wartosc_subtotal =
          nanSum ((stats_df.filter
            (fun r => code_family r.resource_code == st.code_family)).map
              (·.p2_non_zero_wartosc)) ∧
        st.p3_non_zero_wartosc_subtotal =
          nanSum ((stats_df.filter
            (fun r => code_family r.resource_code == st.code_family)).map
              (·.p3_non_zero_wartosc)) ∧
        st.p5_non_zero_wartosc_subtotal =
          nanSum ((stats_df.filter
            (fun r => code_family r.resource_code == st.code_family)).map
              (·.p5_non_zero_wartosc)) := by
  refine ⟨by with_unfolding_all decide, by with_unfolding_all decide,
    fun stats_df => ⟨?_, ?_⟩⟩
  · have hmap : (p5_subtotals_by_family stats_df).map (·.code_family) =
        List.insertionSort (· ≤ ·)
          ((stats_df.map (fun r => code_family r.resource_code)).dedup) := by
      rw [p5_subtotals_by_family, List.map_map]
      exact List.map_id _
    rw [hmap]
    exact List.sorted_insertionSort _ _
  · intro st hst
    rw [p5_subtotals_by_family] at hst
    obtain ⟨fam, hfam, rfl⟩ := List.mem_map.mp hst
    exact ⟨rfl, rfl, rfl, rfl, rfl, rfl⟩

/-- Witness for C9 at a two-row statistics table with families `"BEL"` and
`"UNKNOWN"`. -/
theorem claim_C9_witness :
    ((p5_subtotals_by_family
        [⟨"BEL 2-02", true, some 1, some 1, some 1, some 1⟩,
         ⟨"123XYZ", false, none, none, none, some 7⟩]).map (·.code_family)).Sorted
      (· ≤ ·) ∧
    ((⟨"BEL", 1, 1, 1, 1, 1, 1⟩ : SubtotalRow).resource_code_count =
        (([⟨"BEL 2-02", true, some 1, some 1, some 1, some 1⟩,
           ⟨"123XYZ", false, none, none, none, some 7⟩] : List StatsRow).filter
          (fun r => code_family r.resource_code ==
            (⟨"BEL", 1, 1, 1, 1, 1, 1⟩ : SubtotalRow).code_family)).length ∧
      (⟨"BEL", 1, 1, 1, 1, 1, 1⟩ : SubtotalRow).percentile_base_code_count =
        ((([⟨"BEL 2-02", true, some 1, some 1, some 1, some 1⟩,
           ⟨"123XYZ", false, none, none, none, some 7⟩] : List StatsRow).filter
          (fun r => code_family r.resource_code ==
            (⟨"BEL", 1, 1, 1, 1, 1, 1⟩ : SubtotalRow).code_family)).filter
              (fun r => r.percentile_base_included)).length ∧
      (⟨"BEL", 1, 1, 1, 1, 1, 1⟩ : SubtotalRow).p1_non_zero_wartosc_subtotal =
        nanSum ((([⟨"BEL 2-02", true, some 1, some 1, some 1, some 1⟩,
           ⟨"123XYZ", false, none, none, none, some 7⟩] : List StatsRow).filter
          (fun r => code_family r.resource_code ==
            (⟨"BEL", 1, 1, 1, 1, 1, 1⟩ : SubtotalRow).code_family)).map
              (·.p1_non_zero_wartosc)) ∧
      (⟨"BEL", 1, 1, 1, 1, 1, 1⟩ : SubtotalRow).p2_non_zero_wartosc_subtotal =
        nanSum ((([⟨"BEL 2-02", true, some 1, some 1, some 1, some 1⟩,
           ⟨"123XYZ", false, none, none, none, some 7⟩] : List StatsRow).filter
          (fun r => code_family r.resource_code ==
            (⟨"BEL", 1, 1, 1, 1, 1, 1⟩ : SubtotalRow).code_family)).map
              (·.p2_non_zero_wartosc)) ∧
      (⟨"BEL", 1, 1, 1, 1, 1, 1⟩ : SubtotalRow).p3_non_zero_wartosc_subtotal =
        nanSum ((([⟨"BEL 2-02", true, some 1, some 1, some 1, some 1⟩,
           ⟨"123XYZ", false, none, none, none, some 7⟩] : List StatsRow).filter
          (fun r => code_family r.resource_code ==
            (⟨"BEL", 1, 1, 1, 1, 1, 1⟩ : SubtotalRow).code_family)).map
              (·.p3_non_zero_wartosc)) ∧
      (⟨"BEL", 1, 1, 1, 1, 1, 1⟩ : SubtotalRow).p5_non_zero_wartosc_subtotal =
        nanSum ((([⟨"BEL 2-02", true, some 1, some 1, some 1, some 1⟩,
           ⟨"123XYZ", false, none, none, none, some 7⟩] : List StatsRow).filter
          (fun r => code_family r.resource_code ==
            (⟨"BEL", 1, 1, 1, 1, 1, 1⟩ : SubtotalRow).code_family)).map
              (·.p5_non_zero_wartosc))) :=
  ⟨(claim_C9_family_subtotals.2.2
      [⟨"BEL 2-02", true, some 1, some 1, some 1, some 1⟩,
       ⟨"123XYZ", false, none, none, none, some 7⟩]).1,
   (claim_C9_family_subtotals.2.2
      [⟨"BEL 2-02", true, some 1, some 1, some 1, some 1⟩,
       ⟨"123XYZ", false, none, none, none, some 7⟩]).2
     ⟨"BEL", 1, 1, 1, 1, 1, 1⟩ (by with_unfolding_all decide)⟩

/-! ## Evaluation of `zero_streaks_hours` on a three-zero-reading series
`[t0, t0 + step, t0 + 10*step]` (the spec's gap-splitting scenario). -/

/-- Three exact-zero readings at `t0`, `t0 + step` and `t0 + 10*step`. -/
def threeZeroRows (t0 step : ℚ) : List Row :=
  [⟨some "A", some 0, some t0⟩, ⟨some "A", some 0, some (t0 + step)⟩,
   ⟨some "A", some 0, some (t0 + 10*step)⟩]

lemma threeZeroRows_sorted (t0 step : ℚ) (hpos : 0 < step) :
    sorted_series (threeZeroRows t0 step) "A" =
      [(t0, 0), (t0 + step, 0), (t0 + 10*step, 0)] := by
  have hcoerced : coerced_series (threeZeroRows t0 step) "A" =
      [(t0, 0), (t0 + step, 0), (t0 + 10*step, 0)] := by
    rw [coerced_series, records_for_resource, threeZeroRows]
    rfl
  rw [sorted_series, hcoerced]
  rw [show (List.insertionSort tsLe [(t0, 0), (t0 + step, 0), (t0 + 10*step, (0:ℚ))]) =
    List.orderedInsert tsLe (t0, 0) (List.orderedInsert tsLe (t0 + step, 0)
      (List.orderedInsert tsLe (t0 + 10*step, 0) [])) from rfl]
  rw [List.orderedInsert, List.orderedInsert,
    if_pos (show tsLe (t0 + step, 0) (t0 + 10*step, 0) from by
      show t0 + step ≤ t0 + 10*step
      linarith),
    List.orderedInsert,
    if_pos (show tsLe (t0, 0) (t0 + step, 0) from by
      show t0 ≤ t0 + step
      linarith)]

lemma threeZeroRows_step (t0 step : ℚ) (hpos : 0 < step) :
    dominantStepOf [(t0, 0), (t0 + step, 0), (t0 + 10*step, 0)] = step := by
  have hdeltas : consecutive_deltas [(t0, 0), (t0 + step, 0), (t0 + 10*step, (0:ℚ))] =
      [step, 9*step] := by
    rw [consecutive_deltas]
    show [t0 + step - t0, t0 + 10*step - (t0 + step)] = [step, 9*step]
    rw [show t0 + step - t0 = step from by ring,
      show t0 + 10*step - (t0 + step) = 9*step from by ring]
  have hne : (9:ℚ)*step ≠ step := by
    intro h
    have : (8:ℚ)*step = 0 := by linarith
    have : step = 0 := by linarith
    exact absurd this (ne_of_gt hpos)
  rw [dominantStepOf, hdeltas]
  have hfilter : List.filter (fun d => decide (0 < d)) [step, 9*step] = [step, 9*step] := by
    rw [List.filter_cons, if_pos (by simpa using hpos), List.filter_cons,
      if_pos (by simp only [decide_eq_true_eq]; linarith)]
    rfl
  rw [hfilter]
  have hc1 : List.count step [step, 9*step] = 1 := by
    simp [List.count_cons, beq_iff_eq, hne]
  have hc2 : List.count (9*step) [step, 9*step] = 1 := by
    have hne2 : step ≠ 9*step := fun h => hne h.symm
    simp [List.count_cons, beq_iff_eq, hne2]
  have hmode : pandasMode [step, 9*step] = some step := by
    rw [pandasMode]
    simp only [List.foldl_cons, List.foldl_nil]
    show (if List.count step [step, 9*step] < List.count (9*step) [step, 9*step] ∨
        (List.count (9*step) [step, 9*step] = List.count step [step, 9*step] ∧
          9*step < step)
      then some (9*step) else some step) = some step
    rw [hc1, hc2, if_neg]
    rintro (h | ⟨-, h⟩)
    · exact absurd h (lt_irrefl 1)
    · have : (9:ℚ)*step ≤ step := le_of_lt h
      nlinarith
  rw [hmode]

lemma gapTol_pos (step : ℚ) : 0 < gapTol step := by
  rw [gapTol]
  exact lt_of_lt_of_le (show (0:ℚ) < 1/1000000000 from by norm_num) (le_max_left _ _)

lemma threeZeroRows_assign (t0 step : ℚ) (hpos : 0 < step) :
    assignStreaks step (gapTol step)
      [(t0, 0), (t0 + step, 0), (t0 + 10*step, 0)] none false 0 =
      [(t0, 0, 1), (t0 + step, 0, 1),
       (t0 + 10*step, 0, if gapTol step < 8*step then 2 else 1)] := by
  have h0 : (decide ((0:ℚ) = 0)) = true := by with_unfolding_all rfl
  have hgap2 : decide (0 < t0 + step - t0 ∧ gapTol step < |t0 + step - t0 - step|) =
      false := by
    rw [show t0 + step - t0 = step from by ring, sub_self, abs_zero]
    apply decide_eq_false
    rintro ⟨-, hlt⟩
    exact absurd hlt (not_lt.mpr (le_of_lt (gapTol_pos step)))
  have hgap3 : decide (0 < t0 + 10*step - (t0 + step) ∧
      gapTol step < |t0 + 10*step - (t0 + step) - step|) =
      decide (gapTol step < 8*step) := by
    rw [show t0 + 10*step - (t0 + step) = 9*step from by ring,
      show (9:ℚ)*step - step = 8*step from by ring,
      abs_of_pos (show (0:ℚ) < 8*step from by linarith)]
    by_cases hg : gapTol step < 8*step
    · rw [decide_eq_true (show 0 < 9*step ∧ gapTol step < 8*step from ⟨by linarith, hg⟩),
        decide_eq_true hg]
    · rw [decide_eq_false (fun hc => hg hc.2), decide_eq_false hg]
  simp only [assignStreaks, h0, hgap2, hgap3, Bool.not_false, Bool.not_true,
    Bool.or_false, Bool.false_or, Bool.true_and, Bool.and_true, Bool.true_or,
    Bool.false_and, Bool.and_false, if_true, if_false, decide_eq_true_eq]
  norm_num

lemma seriesMin_triple (a b c : ℚ) : seriesMin [a, b, c] = min a (min b c) := by
  have hm : ([a, b, c] : List ℚ).minimum = (min a (min b c) : ℚ) := by
    rw [List.minimum_eq_coe_iff]
    refine ⟨?_, ?_⟩
    · rcases min_choice a (min b c) with h | h
      · simp [h]
      · rcases min_choice b c with h2 | h2 <;> rw [h] <;> simp [h2]
    · intro x hx
      rcases List.mem_cons.mp hx with rfl | hx
      · exact min_le_left _ _
      · rcases List.mem_pair.mp hx with rfl | rfl
        · exact le_trans (min_le_right _ _) (min_le_left _ _)
        · exact le_trans (min_le_right _ _) (min_le_right _ _)
  rw [seriesMin, hm, WithTop.untop'_coe]

lemma seriesMax_triple (a b c : ℚ) : seriesMax [a, b, c] = max a (max b c) := by
  have hm : ([a, b, c] : List ℚ).maximum = (max a (max b c) : ℚ) := by
    rw [List.maximum_eq_coe_iff]
    refine ⟨?_, ?_⟩
    · rcases max_choice a (max b c) with h | h
      · simp [h]
      · rcases max_choice b c with h2 | h2 <;> rw [h] <;> simp [h2]
    · intro x hx
      rcases List.mem_cons.mp hx with rfl | hx
      · exact le_max_left _ _
      · rcases List.mem_pair.mp hx with rfl | rfl
        · exact le_trans (le_max_left _ _) (le_max_right _ _)
        · exact le_trans (le_max_right _ _) (le_max_right _ _)
  rw [seriesMax, hm, WithBot.unbot'_coe]

/-- Full evaluation of `zero_streaks_hours` on the three-zero-reading
series: when `8*step` exceeds the gap tolerance the large gap before the
third reading splits the run into streaks of 2 and 1 intervals; otherwise
a single streak of 3 intervals results. -/
lemma threeZeroRows_streaks (t0 step : ℚ) (hpos : 0 < step) :
    zero_streaks_hours (threeZeroRows t0 step) "A" =
      .ok (if gapTol step < 8*step then
        [⟨1, t0, t0 + step, 2, 2*step⟩, ⟨2, t0 + 10*step, t0 + 10*step, 1, step⟩]
      else
        [⟨1, t0, t0 + 10*step, 3, 3*step⟩]) := by
  have hrecs : records_for_resource (threeZeroRows t0 step) "A" = threeZeroRows t0 step := by
    rw [records_for_resource, threeZeroRows]
    rfl
  have hrec : records_for_resource (threeZeroRows t0 step) "A" ≠ [] := by
    rw [hrecs, threeZeroRows]
    exact List.cons_ne_nil _ _
  have hsorted := threeZeroRows_sorted t0 step hpos
  have hsne : sorted_series (threeZeroRows t0 step) "A" ≠ [] := by
    rw [hsorted]
    exact List.cons_ne_nil _ _
  rw [zero_streaks_hours, if_neg hrec, if_neg hsne, zero_rows_with_ids, hsorted,
    threeZeroRows_step t0 step hpos, threeZeroRows_assign t0 step hpos]
  have hbeq : ((0:ℚ) == 0) = true := by with_unfolding_all rfl
  by_cases hg : gapTol step < 8*step
  · rw [if_pos hg, if_pos hg]
    simp only [List.filter_cons, List.filter_nil, hbeq, if_true, List.map_cons,
      List.map_nil]
    rw [buildStreaks]
    simp only [List.map_cons, List.map_nil]
    rw [show ([1, 1, 2] : List ℕ).dedup = [1, 2] from by decide]
    simp only [List.map_cons, List.map_nil, List.filter_cons, List.filter_nil]
    norm_num
    rw [seriesMin_pair, seriesMax_pair, seriesMin_single, seriesMax_single,
      min_eq_left (by linarith), max_eq_right (by linarith)]
    exact ⟨⟨rfl, rfl⟩, rfl, rfl⟩
  · rw [if_neg hg, if_neg hg]
    simp only [List.filter_cons, List.filter_nil, hbeq, if_true, List.map_cons,
      List.map_nil]
    rw [buildStreaks]
    simp only [List.map_cons, List.map_nil]
    rw [show ([1, 1, 1] : List ℕ).dedup = [1] from by decide]
    simp only [List.map_cons, List.map_nil, List.filter_cons, List.filter_nil]
    norm_num
    rw [seriesMin_triple, seriesMax_triple]
    constructor
    · rw [min_eq_left (show t0 + step ≤ t0 + 10*step from by linarith),
        min_eq_left (show t0 ≤ t0 + step from by linarith)]
    · rw [max_eq_right (show t0 + step ≤ t0 + 10*step from by linarith),
        max_eq_right (show t0 ≤ t0 + 10*step from by linarith)]

/-- Counterexample to C1 as stated: three zero readings at `t0 = 0`,
`t0 + step` and `t0 + 10*step` with `step = 1/16000000000` hours (62.5
picoseconds, a legal nanosecond-resolution timestamp spacing).  The gap of
`9*step` differs from the dominant step by `8*step = 1/2000000000`, which
is BELOW the detection tolerance `max(1e-9, step/100) = 1/1000000000`, so
no gap break occurs and detection reports a single streak of interval
count 3 — not the two streaks of 2 and 1 the claim requires for every
such series. -/
theorem claim_C1_counterexample :
    zero_streaks_hours (threeZeroRows 0 (1/16000000000)) "A" =
      .ok [⟨1, 0, 1/1600000000, 3, 3/16000000000⟩] := by
  have hpos : (0:ℚ) < 1/16000000000 := by norm_num
  have hg : ¬ gapTol (1/16000000000) < 8*(1/16000000000) := by
    rw [gapTol]
    exact not_lt.mpr (le_trans (by norm_num) (le_max_left _ _))
  rw [threeZeroRows_streaks 0 (1/16000000000) hpos, if_neg hg]
  norm_num

/-- C1 (amended): a new zero streak starts exactly at a zero row whose
previous row was non-zero or where a gap break occurred; in particular,
for three zero readings at `t0`, `t0 + step` and `t0 + 10*step` whose gap
excess `8*step` exceeds the tolerance `max(1e-9, step/100)` — i.e.
whenever `step > 1/8000000000` hours — detection reports two streaks of
interval counts 2 and 1, never a single streak of 3. -/
theorem claim_C1_gap_splitting (t0 step : ℚ) (hstep : 1/8000000000 < step) :
    zero_streaks_hours (threeZeroRows t0 step) "A" =
      .ok [⟨1, t0, t0 + step, 2, 2*step⟩,
           ⟨2, t0 + 10*step, t0 + 10*step, 1, step⟩] := by
  have hpos : 0 < step := lt_trans (by norm_num) hstep
  have hg : gapTol step < 8*step := by
    rw [gapTol]
    exact max_lt (by linarith) (by linarith)
  rw [threeZeroRows_streaks t0 step hpos, if_pos hg]

/-- Witness for the amended C1 at `t0 = 0`, `step = 1` hour. -/
theorem claim_C1_witness :
    (1/8000000000 : ℚ) < 1 ∧
    zero_streaks_hours (threeZeroRows 0 1) "A" =
      .ok [⟨1, 0, 0 + 1, 2, 2*1⟩, ⟨2, 0 + 10*1, 0 + 10*1, 1, 1⟩] :=
  ⟨by norm_num, claim_C1_gap_splitting 0 1 (by norm_num)⟩

end CsvAnalyser
